import Mathlib

/-!
Shallow embedding of the `mcp-web-integration` repository: a Python MCP
server exposing a SearxNG web-search tool, a Crawl4AI page-extraction tool
and a YouTube-transcript tool.  Pure logic (parameter validation, URL
parsing, response reshaping, dispatch, error-to-text conversion) is
translated into executable Lean definitions; each outbound HTTP or library
call is modelled by an explicit "outcome" value passed to the function that
in Python performs the call, so that every failure mode the Python code
distinguishes (timeout, transport error, non-2xx status, undecodable JSON,
structurally incomplete body, ...) is a constructor the Lean function
branches on exactly where the Python code catches it.
-/

namespace WebIntegration

/-! ## YouTube transcript adapter (`src/web_integration/youtube/`) -/

/-- Characters allowed inside a captured 11-character YouTube video ID: the
regexes in `youtube/extractor.py` (lines 18-21) use the character class
`[^"&?/\s]`; `\s` is modelled by the six ASCII whitespace characters. -/
def validIdChar (c : Char) : Bool :=
  !(c = '"' || c = '&' || c = '?' || c = '/' ||
    c = ' ' || c = '\t' || c = '\n' || c = '\r' || c = '\x0b' || c = '\x0c')

/-- Capture group `([^"&?/\s]{11})`: succeeds when at least 11 characters
remain at this position and the first 11 are all valid, returning them. -/
def captureId (cs : List Char) : Option String :=
  let cap := cs.take 11
  if cap.length = 11 && cap.all validIdChar then some (String.mk cap) else none

/-- At one position, try each alternative literal in order (regex
alternation with backtracking): the literal must occur at this position and
be followed by an 11-character capture. -/
def matchAltsAt (alts : List (List Char)) (cs : List Char) : Option String :=
  match alts with
  | [] => none
  | a :: rest =>
    if cs.take a.length = a then
      match captureId (cs.drop a.length) with
      | some v => some v
      | none => matchAltsAt rest cs
    else matchAltsAt rest cs

/-- Model of `re.search` for `(?:alt1|alt2|...)([^"&?/\s]{11})`: scan
positions left to right; the first position, then the first alternative,
that matches wins. -/
def searchAlts (alts : List (List Char)) (cs : List Char) : Option String :=
  match cs with
  | [] => none
  | _ :: tail =>
    match matchAltsAt alts cs with
    | some v => some v
    | none => searchAlts alts tail

/-- Model of `re.search` for `^([^"&?/\s]{11})$`: the whole input is itself
an 11-character ID; Python `$` also matches just before one trailing
newline. -/
def wholeIdMatch (cs : List Char) : Option String :=
  let body := if cs.length = 12 && cs.getLastD 'x' = '\n' then cs.take 11 else cs
  if body.length = 11 && body.all validIdChar then some (String.mk body) else none

/-- First pattern of `_extract_video_id`:
`(?:v=|/v/|youtu\.be/)([^"&?/\s]{11})` (standard and shortened URLs). -/
def idPatternStandard : List (List Char) :=
  [String.toList "v=", String.toList "/v/", String.toList "youtu.be/"]

/-- Second pattern of `_extract_video_id`:
`(?:embed/|e/)([^"&?/\s]{11})` (embed URLs). -/
def idPatternEmbed : List (List Char) :=
  [String.toList "embed/", String.toList "e/"]

/-- `YouTubeTranscriptExtractor._extract_video_id`
(`youtube/extractor.py`, lines 16-28): tries the standard pattern, then the
embed pattern, then the whole-input pattern; the first match wins, and when
none matches it raises `ValueError` naming the input (modelled as
`Except.error`). -/
def extractVideoId (url : String) : Except String String :=
  let cs := url.toList
  match searchAlts idPatternStandard cs with
  | some v => .ok v
  | none =>
    match searchAlts idPatternEmbed cs with
    | some v => .ok v
    | none =>
      match wholeIdMatch cs with
      | some v => .ok v
      | none => .error ("Could not extract video ID from URL: " ++ url)

/-- One raw transcript segment as returned by the upstream transcript
library, a dict with `text`, `start` and `duration`; the float timing
values only pass through this code and are modelled as rationals. -/
structure RawSegment where
  text : String
  start : Rat
  duration : Rat
deriving Repr, DecidableEq

/-- `TranscriptSegment` from `youtube/schemas.py`. -/
structure TranscriptSegment where
  text : String
  start : Rat
  duration : Rat
deriving Repr, DecidableEq

/-- `TranscriptResponse` from `youtube/schemas.py`. -/
structure TranscriptResponse where
  text : String
  language : String
  segments : List TranscriptSegment
deriving Repr, DecidableEq

/-- Success path of `YouTubeTranscriptExtractor.get_transcript`
(`youtube/extractor.py`, lines 72-89): segments are converted in upstream
order and `full_text = ' '.join(segment['text'] for segment in segments)`. -/
def buildTranscriptResponse (language : String) (segments : List RawSegment) :
    TranscriptResponse :=
  { text := String.intercalate " " (segments.map RawSegment.text)
    language := language
    segments := segments.map (fun s =>
      { text := s.text, start := s.start, duration := s.duration }) }

/-- Python `language = language or self.config.default_language`
(`youtube/extractor.py`, line 53): `or` treats the empty string like an
absent argument. -/
def resolveLanguage (language : Option String) (defaultLang : String) : String :=
  match language with
  | some l => if l = "" then defaultLang else l
  | none => defaultLang

/-- Outcome of the upstream transcript-library interaction inside
`get_transcript`: transcripts disabled, no transcript found (either when
looking up the language or when translating), any other exception, or a
fetched list of raw segments. -/
inductive TranscriptOutcome where
  | disabled (msg : String)
  | notFound (msg : String)
  | unexpected (msg : String)
  | fetched (segments : List RawSegment)
deriving Repr, DecidableEq

/-- `YouTubeTranscriptExtractor.get_transcript` (`youtube/extractor.py`,
lines 30-98) with the upstream library call replaced by its outcome.
Failures are raised in Python; both re-raised kinds (`TranscriptsDisabled`,
`NoTranscriptFound`) carry the message with the video ID interpolated, and
any other exception is wrapped as a generic runtime failure.  Raising is
modelled by `Except.error`. -/
def getTranscript (url : String) (language : Option String) (defaultLang : String)
    (outcome : TranscriptOutcome) : Except String TranscriptResponse :=
  match extractVideoId url with
  | .error e => .error e
  | .ok videoId =>
    let lang := resolveLanguage language defaultLang
    match outcome with
    | .disabled msg =>
      .error ("Failed to get transcript for video " ++ videoId ++ ": " ++ msg)
    | .notFound msg =>
      .error ("Failed to get transcript for video " ++ videoId ++ ": " ++ msg)
    | .unexpected msg => .error ("Unexpected error getting transcript: " ++ msg)
    | .fetched segments => .ok (buildTranscriptResponse lang segments)

/-! ## URL parsing (`urllib.parse.urlparse`, as used by the validators) -/

/-- Characters permitted inside a URL scheme by `urllib.parse`
(letters, digits, `+`, `-`, `.`). -/
def schemeChar (c : Char) : Bool :=
  c.isAlpha || c.isDigit || c = '+' || c = '-' || c = '.'

/-- A character ending the network-location component: `urllib.parse`
splits the netloc at the first of `/`, `?` or `#`. -/
def netlocEnd (c : Char) : Bool :=
  c = '/' || c = '?' || c = '#'

/-- The scheme and network-location components of a parsed URL; the other
components of `urllib.parse.urlparse` are never read by this repository. -/
structure UrlParts where
  scheme : String
  netloc : String
deriving Repr, DecidableEq

/-- Model of `urllib.parse.urlparse` restricted to the `scheme` and
`netloc` components: a scheme is recognised when the first `:` is preceded
by a nonempty run of scheme characters starting with a letter (and is
lowercased); a netloc is present exactly when what follows starts with
`//`, and extends to the next `/`, `?` or `#`.  Like `urlsplit`, leading
and trailing C0-control-or-space characters are stripped and every tab,
carriage return and line feed is removed before parsing. -/
def urlparse (url : String) : UrlParts :=
  let stripped :=
    ((url.toList.dropWhile (fun c => c.toNat ≤ 32)).reverse.dropWhile
      (fun c => c.toNat ≤ 32)).reverse
  let cs := stripped.filter (fun c => !(c = '\t' || c = '\r' || c = '\n'))
  let split :=
    match cs.findIdx? (fun c => c = ':') with
    | some i =>
      let sc := cs.take i
      if 0 < i && sc.all schemeChar && (sc.headD ' ').isAlpha then
        (String.mk (sc.map Char.toLower), cs.drop (i + 1))
      else ("", cs)
    | none => ("", cs)
  let netloc :=
    match split.2 with
    | '/' :: '/' :: tail => String.mk (tail.takeWhile (fun c => !netlocEnd c))
    | _ => ""
  { scheme := split.1, netloc := netloc }

/-! ## Crawl4AI adapter (`src/web_integration/crawl4ai/`) -/

/-- `CrawlParams.validate_url` (`crawl4ai/schemas.py`, lines 23-31):
Python `all([result.scheme, result.netloc])` is truthiness of both
components, i.e. both nonempty; then the scheme must be `http` or `https`.
A raised `ValueError` is modelled as `Except.error`. -/
def validateCrawlUrl (v : String) : Except String String :=
  let result := urlparse v
  if result.scheme == "" || result.netloc == "" then
    .error "Invalid URL format: must include scheme and host"
  else if !(result.scheme == "http" || result.scheme == "https") then
    .error "URL scheme must be http or https"
  else .ok v

/-- `CrawlParams` from `crawl4ai/schemas.py`; a value of this type exists
only after pydantic validation, in particular after `validate_url`
accepted `url`. -/
structure CrawlParams where
  url : String
  timeout : Option Nat
  cache_mode : Option String
  extra_headers : Option (List (String × String))
deriving Repr, DecidableEq

/-- `Link` from `crawl4ai/schemas.py`: `href` and `text` are required
strings, `title` is optional. -/
structure Link where
  href : String
  text : String
  title : Option String
deriving Repr, DecidableEq

/-- The `links` dictionary of a `CrawlResult`: the crawler always builds it
with exactly the keys `"internal"` and `"external"`; the second is modelled
by the field `ext`. -/
structure Links where
  internal : List Link
  ext : List Link
deriving Repr, DecidableEq

/-- `CrawlResult` from `crawl4ai/schemas.py`. -/
structure CrawlResult where
  url : String
  content : String
  status : String
  success : Bool
  error : Option String
  links : Links
deriving Repr, DecidableEq

/-- `CrawlResponse` from `crawl4ai/schemas.py`. -/
structure CrawlResponse where
  results : List CrawlResult
  total_count : Nat
deriving Repr, DecidableEq

/-- One raw link entry of the upstream body: the crawler reads `href`,
`text` and `title` with `dict.get`, so each may be absent. -/
structure RawLink where
  href : Option String
  text : Option String
  title : Option String
deriving Repr, DecidableEq

/-- The `links` value of the upstream body: the crawler reads the
`"internal"` and `"external"` lists with `dict.get(..., [])`, so each may
be absent; the `"external"` key is modelled by the field `ext`. -/
structure RawLinks where
  internal : Option (List RawLink)
  ext : Option (List RawLink)
deriving Repr, DecidableEq

/-- The `result` value of the upstream body as far as the crawler reads
it: `markdown` (outer `Option`: key present; inner `Option`: JSON null or a
string), `success` and `links` may each be absent. -/
structure RawResult where
  markdown : Option (Option String)
  success : Option Bool
  links : Option RawLinks
deriving Repr, DecidableEq

/-- The decoded upstream body as far as the crawler reads it: the `result`
key and the top-level `error` key (read with `data.get("error")`). -/
structure RawBody where
  result : Option RawResult
  error : Option String
deriving Repr, DecidableEq

/-- A successfully JSON-decoded upstream body: either not a dictionary at
all, or a dictionary. -/
inductive DecodedBody where
  | notDict
  | dict (body : RawBody)
deriving Repr, DecidableEq

/-- The fields `crawl` reads out of a validated body. -/
structure ValidatedResult where
  markdown : Option String
  success : Bool
  links : RawLinks
  topError : Option String
deriving Repr, DecidableEq

/-- `Crawl4AICrawler._validate_response_data` (`crawl4ai/crawler.py`,
lines 53-72), fused with the field accesses `data["result"][...]` and
`data.get("error")` that `crawl` performs right after validation succeeds:
the checks run in the Python order (dictionary, `result`, then `markdown`,
`success`, `links` inside it) and the first failure wins. -/
def validateResponseData (decoded : DecodedBody) : Except String ValidatedResult :=
  match decoded with
  | .notDict => .error "Invalid response format: expected dictionary"
  | .dict b =>
    match b.result with
    | none => .error "Missing required field: result"
    | some r =>
      match r.markdown with
      | none => .error "Missing required field in result: markdown"
      | some md =>
        match r.success with
        | none => .error "Missing required field in result: success"
        | some s =>
          match r.links with
          | none => .error "Missing required field in result: links"
          | some l =>
            .ok { markdown := md, success := s, links := l, topError := b.error }

/-- `Crawl4AICrawler._build_error_response` (`crawl4ai/crawler.py`,
lines 74-88). -/
def buildErrorResponse (url : String) (error : String) : CrawlResponse :=
  { results := [{
      url := url
      content := "Error occurred while crawling"
      status := "failed"
      success := false
      error := some error
      links := { internal := [], ext := [] } }]
    total_count := 1 }

/-- Reshaping of one raw link entry (`crawl4ai/crawler.py`, lines 137-141
and 145-149): `href`, `text` and `title` are all read with
`link.get(key, "")`, so each absent field becomes the empty string; the
resulting `title` is the always-present string fed to the optional `title`
field of `Link`. -/
def reshapeRawLink (l : RawLink) : Link :=
  { href := l.href.getD "", text := l.text.getD "", title := some (l.title.getD "") }

/-- Outcome of the single `POST` issued by `Crawl4AICrawler.crawl`: a
timeout, a transport-level error, another request error, any other
exception, or an HTTP response carrying a status code, the message text an
`HTTPStatusError` for it would render, and the body-decoding outcome.
The constructors are disjoint by which Python `except` clause catches
them (`httpx.TimeoutException`, `httpx.TransportError`,
`httpx.RequestError`, `Exception`, in that order). -/
inductive CrawlOutcome where
  | timeout (msg : String)
  | transportError (msg : String)
  | requestError (msg : String)
  | unexpected (msg : String)
  | response (status : Nat) (statusMsg : String) (body : Except String DecodedBody)
deriving Repr

/-- `Crawl4AICrawler.crawl` (`crawl4ai/crawler.py`, lines 90-176) with the
HTTP call replaced by its outcome.  `response.raise_for_status()` raises
exactly for a non-2xx status; `content` is
`data["result"]["markdown"] or ""` (Python `or` maps null to the empty
string); every failure converges on `_build_error_response` and nothing is
raised. -/
def crawl (url : String) (outcome : CrawlOutcome) : CrawlResponse :=
  match outcome with
  | .timeout msg => buildErrorResponse url ("Request timeout: " ++ msg)
  | .transportError msg => buildErrorResponse url ("HTTP/2 transport error: " ++ msg)
  | .requestError msg => buildErrorResponse url ("Request failed: " ++ msg)
  | .unexpected msg => buildErrorResponse url ("Unexpected error: " ++ msg)
  | .response status statusMsg body =>
    if !(200 ≤ status && status < 300) then
      buildErrorResponse url ("HTTP " ++ toString status ++ ": " ++ statusMsg)
    else
      match body with
      | .error msg => buildErrorResponse url ("Invalid JSON response: " ++ msg)
      | .ok decoded =>
        match validateResponseData decoded with
        | .error msg => buildErrorResponse url msg
        | .ok v =>
          { results := [{
              url := url
              content := v.markdown.getD ""
              status := "completed"
              success := v.success
              error := v.topError
              links := { internal := (v.links.internal.getD []).map reshapeRawLink
                         ext := (v.links.ext.getD []).map reshapeRawLink } }]
            total_count := 1 }

/-- Failure discriminator for a crawl outcome: every case except a 2xx
response whose body decoded and passed `_validate_response_data`. -/
def crawlFailure : CrawlOutcome → Bool
  | .timeout _ => true
  | .transportError _ => true
  | .requestError _ => true
  | .unexpected _ => true
  | .response status _ body =>
    if !(200 ≤ status && status < 300) then true
    else
      match body with
      | .error _ => true
      | .ok decoded =>
        match validateResponseData decoded with
        | .error _ => true
        | .ok _ => false

/-! ## SearxNG adapter (`src/web_integration/searxng/`) -/

/-- `SearchParams` from `searxng/schemas.py`: `query` required, `limit`
defaulting to 3 with bounds 1-50, `time_range` optional, `page` optional
with default 1.  A value of this type exists only after pydantic
validation. -/
structure SearchParams where
  query : String
  limit : Nat
  time_range : Option String
  page : Option Nat
deriving Repr, DecidableEq

/-- `SearchResult` from `searxng/schemas.py`; the `HttpUrl` type of `url`
is modelled as the underlying string. -/
structure SearchResult where
  title : String
  url : String
  snippet : String
deriving Repr, DecidableEq

/-- `SearchResponse` from `searxng/schemas.py`. -/
structure SearchResponse where
  results : List SearchResult
  total_count : Nat
deriving Repr, DecidableEq

/-- The upstream query parameters built by `SearxNGSearcher.search`
(`searxng/searcher.py`, lines 22-29). -/
structure SearchApiParams where
  q : String
  format : String
  pageno : Option Nat
  time_range : Option String
deriving Repr, DecidableEq

/-- Construction of the upstream query (`searxng/searcher.py`, lines
22-29): fields `q`, `format="json"` and `pageno` always; `time_range` only
when truthy (Python `if params.time_range:` also drops an empty string).
`params.limit` is never read here. -/
def buildSearchApiParams (p : SearchParams) : SearchApiParams :=
  { q := p.query
    format := "json"
    pageno := p.page
    time_range :=
      match p.time_range with
      | some t => if t = "" then none else some t
      | none => none }

/-- One entry of the upstream `results` list: the searcher reads `title`
and `url` with `dict[...]` (raising `KeyError` when absent) and `content`
with `dict.get`, so each is modelled as optional. -/
structure RawSearchEntry where
  title : Option String
  url : Option String
  content : Option String
deriving Repr, DecidableEq

/-- Model of the pydantic `HttpUrl` validation applied to
`SearchResult.url`: the URL must carry an `http` or `https` scheme and a
nonempty host. -/
def validHttpUrl (u : String) : Bool :=
  let parts := urlparse u
  (parts.scheme == "http" || parts.scheme == "https") && parts.netloc != ""

/-- One iteration of the result loop in `SearxNGSearcher.search`
(`searxng/searcher.py`, lines 53-64): a `KeyError` (missing `title` or
`url`) or a pydantic `ValueError` (url failing `HttpUrl` validation) is
caught and the entry skipped; an absent `content` defaults the snippet to
the literal `"No description available"`. -/
def validateSearchEntry (e : RawSearchEntry) : Option SearchResult :=
  match e.title, e.url with
  | some t, some u =>
    if validHttpUrl u then
      some { title := t, url := u, snippet := e.content.getD "No description available" }
    else none
  | _, _ => none

/-- The decoded upstream search body as far as the searcher reads it: the
`results` list, read with `data.get("results", [])`. -/
structure SearchBody where
  results : Option (List RawSearchEntry)
deriving Repr, DecidableEq

/-- Outcome of the single `GET` issued by `SearxNGSearcher.search`: a
timeout, another request error, any other exception, or an HTTP response
carrying a status code, the message an `HTTPStatusError` for it would
render, and the body-decoding outcome. -/
inductive SearchOutcome where
  | timeout (msg : String)
  | requestError (msg : String)
  | unexpected (msg : String)
  | response (status : Nat) (statusMsg : String) (body : Except String SearchBody)
deriving Repr

set_option linter.unusedVariables false in
/-- `SearxNGSearcher.search` (`searxng/searcher.py`, lines 18-84) with the
HTTP call replaced by its outcome.  Raised `RuntimeError`s are modelled as
`Except.error`.  Note the inner `raise RuntimeError` for a non-2xx status
or an undecodable body is itself caught by the generic
`except Exception` clause and re-wrapped, so those messages carry the
`"Search operation failed: "` outer layer as well.  The parameters only
feed `buildSearchApiParams` (the outbound query); no field of `p` is read
when shaping the response. -/
def search (p : SearchParams) (outcome : SearchOutcome) : Except String SearchResponse :=
  match outcome with
  | .timeout msg => .error ("Request timeout: " ++ msg)
  | .requestError msg => .error ("Request failed: " ++ msg)
  | .unexpected msg => .error ("Search operation failed: " ++ msg)
  | .response status statusMsg body =>
    if !(200 ≤ status && status < 300) then
      .error ("Search operation failed: " ++
        ("HTTP " ++ toString status ++ ": " ++ statusMsg))
    else
      match body with
      | .error msg => .error ("Search operation failed: " ++ ("Invalid JSON response: " ++ msg))
      | .ok b =>
        let entries := b.results.getD []
        .ok { results := entries.filterMap validateSearchEntry
              total_count := entries.length }

/-! ## Tool handlers (`searxng/tool.py`, `crawl4ai/tool.py`,
`youtube/tool.py`) -/

/-- A rendered text content (`mcp.types.TextContent`): its `type` field is
always the literal `"text"` in this repository, so only the text is
modelled.  The success path of `Crawl4AITool.handle_request` returns the
`model_dump` of such a value; both shapes carry the one `text` string
modelled here. -/
structure TextContent where
  text : String
deriving Repr, DecidableEq

/-- Per-result text block built by `SearxNGSearchTool.handle_request`
(`searxng/tool.py`, lines 62-67), with 1-based index `idx`. -/
def renderSearchResult (idx : Nat) (r : SearchResult) : String :=
  toString idx ++ ". " ++ r.title ++ "\n" ++ "URL: " ++ r.url ++ "\n" ++
    "Description: " ++ r.snippet ++ "\n"

/-- Success rendering of `SearxNGSearchTool.handle_request`
(`searxng/tool.py`, lines 60-77): a summary content followed by the joined
per-result blocks. -/
def renderSearchResponse (resp : SearchResponse) : List TextContent :=
  let resultTexts := resp.results.enum.map (fun p => renderSearchResult (p.1 + 1) p.2)
  [ { text := "Found " ++ toString resp.total_count ++ " results (showing top " ++
        toString resp.results.length ++ ")" },
    { text := "\n\n" ++ String.intercalate "\n" resultTexts } ]

/-- `SearxNGSearchTool.handle_request` (`searxng/tool.py`, lines 52-80):
the pydantic parse of `arguments` into `SearchParams` is modelled by its
outcome `parse`; any exception escaping the body is converted into a
single `"Search failed: ..."` text content. -/
def searchHandleRequest (parse : Except String SearchParams) (outcome : SearchOutcome) :
    List TextContent :=
  match parse with
  | .error e => [{ text := "Search failed: " ++ e }]
  | .ok p =>
    match search p outcome with
    | .error e => [{ text := "Search failed: " ++ e }]
    | .ok resp => renderSearchResponse resp

/-- Per-link line built by `Crawl4AITool.handle_request` (`crawl4ai/tool.py`,
lines 76-77 and 82-83): the title suffix is appended only when the title is
truthy (neither absent nor empty). -/
def renderLink (l : Link) : String :=
  "- " ++ l.text ++ " (" ++ l.href ++ ")" ++
    (match l.title with
     | some t => if t = "" then "" else " [" ++ t ++ "]"
     | none => "")

/-- Per-result text lines built by `Crawl4AITool.handle_request`
(`crawl4ai/tool.py`, lines 66-95); a failed result renders
`str(result.error)`, which is `"None"` for an absent error. -/
def renderCrawlResult (r : CrawlResult) : List String :=
  if r.success then
    ["URL: " ++ r.url, "Content:", r.content, "---", "\nInternal Links:"] ++
      r.links.internal.map renderLink ++
      ["\nExternal Links:"] ++
      r.links.ext.map renderLink
  else
    ["Failed to crawl " ++ r.url, "Error: " ++ r.error.getD "None", "---"]

/-- Success rendering of `Crawl4AITool.handle_request` (`crawl4ai/tool.py`,
lines 97-101): one text content joining every result block. -/
def renderCrawlResponse (resp : CrawlResponse) : List TextContent :=
  [{ text := "\n\n" ++ String.intercalate "\n" (resp.results.map renderCrawlResult).flatten }]

/-- `Crawl4AITool.handle_request` (`crawl4ai/tool.py`, lines 56-104): the
pydantic parse of `arguments` into `CrawlParams` is modelled by its
outcome `parse`; `crawl` itself never raises, so the `except` branch fires
for parameter-validation failures (and is modelled for them), converting
the exception into a single `"Crawl failed: ..."` text content. -/
def crawlHandleRequest (parse : Except String CrawlParams) (outcome : CrawlOutcome) :
    List TextContent :=
  match parse with
  | .error e => [{ text := "Crawl failed: " ++ e }]
  | .ok p => renderCrawlResponse (crawl p.url outcome)

/-- `TranscriptRequest` from `youtube/schemas.py`. -/
structure TranscriptRequest where
  url : String
  language : Option String
deriving Repr, DecidableEq

/-- Rendering of the Python f-string `{x:.1f}` applied to a timing value
(`youtube/tool.py`, line 61), modelled on rationals with round-to-nearest;
exact binary floating-point formatting is not modelled, and no statement
below depends on this rendering. -/
def formatSeconds (q : Rat) : String :=
  let t : Int := round (q * 10)
  toString (t / 10) ++ "." ++ toString (t % 10)

/-- Per-segment line built by `YouTubeTranscriptTool.handle_request`
(`youtube/tool.py`, lines 60-63). -/
def renderSegmentLine (s : TranscriptSegment) : String :=
  "[" ++ formatSeconds s.start ++ "s - " ++ formatSeconds (s.start + s.duration) ++
    "s] " ++ s.text

/-- Success rendering of `YouTubeTranscriptTool.handle_request`
(`youtube/tool.py`, lines 55-66): one text content joining the header lines
and the timestamped segment lines. -/
def renderTranscriptResponse (t : TranscriptResponse) : List TextContent :=
  [{ text := String.intercalate "\n"
      (["Language: " ++ t.language, "\nTranscript:", t.text, "\nTimestamped Segments:"] ++
        t.segments.map renderSegmentLine) }]

/-- `YouTubeTranscriptTool.handle_request` (`youtube/tool.py`, lines
43-69): the pydantic parse of `arguments` into `TranscriptRequest` is
modelled by its outcome `parse`; any exception escaping the body is
converted into a single `"Transcript extraction failed: ..."` text
content. -/
def transcriptHandleRequest (parse : Except String TranscriptRequest)
    (defaultLang : String) (outcome : TranscriptOutcome) : List TextContent :=
  match parse with
  | .error e => [{ text := "Transcript extraction failed: " ++ e }]
  | .ok p =>
    match getTranscript p.url p.language defaultLang outcome with
    | .error e => [{ text := "Transcript extraction failed: " ++ e }]
    | .ok t => renderTranscriptResponse t

/-! ## Server dispatch (`src/web_integration/server.py`) -/

/-- Caller-supplied tool arguments, modelled as a key-value list; the
dispatcher only tests key membership and forwards the mapping verbatim. -/
abbrev Arguments := List (String × String)

/-- Membership of a key in the arguments mapping (Python `key in arguments`). -/
def hasArg (args : Arguments) (key : String) : Bool :=
  args.any (fun kv => kv.1 == key)

/-- The slice of an MCP tool descriptor (`mcp.types.Tool`) this development
needs: the name, the description and the schema-required argument names. -/
structure ToolDescriptor where
  name : String
  description : String
  required : List String
deriving Repr, DecidableEq

/-- `SearxNGSearchTool.tool_definition` (`searxng/tool.py`, lines 22-50). -/
def searxngToolDefinition : ToolDescriptor :=
  { name := "searxng_search"
    description := "Search the web using SearxNG"
    required := ["query"] }

/-- `Crawl4AITool.tool_definition` (`crawl4ai/tool.py`, lines 22-54). -/
def crawl4aiToolDefinition : ToolDescriptor :=
  { name := "crawl4ai_extract"
    description := "Extract content from web pages using Crawl4AI"
    required := ["url"] }

/-- `YouTubeTranscriptTool.tool_definition` (`youtube/tool.py`, lines
21-41).  The class exists in the repository, but `server.py` never imports
or constructs it. -/
def youtubeToolDefinition : ToolDescriptor :=
  { name := "youtube_transcript"
    description := "Extract transcript from YouTube videos"
    required := ["url"] }

/-- `handle_list_tools` (`server.py`, lines 26-35): appends the descriptor
of each registered global tool; only the SearxNG and Crawl4AI tools are
ever constructed by `main` (`server.py`, lines 101-103), so those are the
only possible entries. -/
def handleListTools (searxngRegistered crawl4aiRegistered : Bool) : List ToolDescriptor :=
  (if searxngRegistered then [searxngToolDefinition] else []) ++
    (if crawl4aiRegistered then [crawl4aiToolDefinition] else [])

/-- `handle_call_tool` (`server.py`, lines 38-62).  `searxngRegistered` and
`crawl4aiRegistered` model the global tool instances being non-`None`; the
two adapter handlers are passed as functions so that invocation (or not) of
an adapter is visible in the model; `arguments = None` is replaced by the
empty mapping; raised `ValueError`s are modelled as `Except.error`. -/
def handleCallTool (searxngRegistered crawl4aiRegistered : Bool)
    (searxngHandler crawl4aiHandler : Arguments → List TextContent)
    (name : String) (arguments : Option Arguments) :
    Except String (List TextContent) :=
  let args := arguments.getD []
  if name == "searxng_search" && searxngRegistered then
    if args.isEmpty || !hasArg args "query" then
      .error "Missing required parameter: 'query'"
    else .ok (searxngHandler args)
  else if name == "crawl4ai_extract" && crawl4aiRegistered then
    if args.isEmpty || !hasArg args "url" then
      .error "Missing required parameter: 'url'"
    else .ok (crawl4aiHandler args)
  else .error ("Unknown tool: " ++ name)

/-! ## Theorems about the claims -/

/-- C4: video-ID extraction tries the three patterns in order, first match
wins; the four concrete behaviours from the spec hold. -/
theorem C4_video_id_extraction :
    extractVideoId "https://youtu.be/AAAAAAAAAAA" = .ok "AAAAAAAAAAA" ∧
    extractVideoId "https://www.youtube.com/embed/BBBBBBBBBBB" = .ok "BBBBBBBBBBB" ∧
    extractVideoId "CCCCCCCCCCC" = .ok "CCCCCCCCCCC" ∧
    extractVideoId "not-a-valid-id" =
      .error "Could not extract video ID from URL: not-a-valid-id" ∧
    (∀ url v, searchAlts idPatternStandard url.toList = some v →
      extractVideoId url = .ok v) ∧
    (∀ url v, searchAlts idPatternStandard url.toList = none →
      searchAlts idPatternEmbed url.toList = some v → extractVideoId url = .ok v) ∧
    (∀ url v, searchAlts idPatternStandard url.toList = none →
      searchAlts idPatternEmbed url.toList = none → wholeIdMatch url.toList = some v →
      extractVideoId url = .ok v) ∧
    (∀ url, searchAlts idPatternStandard url.toList = none →
      searchAlts idPatternEmbed url.toList = none → wholeIdMatch url.toList = none →
      extractVideoId url = .error ("Could not extract video ID from URL: " ++ url)) := by
  refine ⟨by rfl, by rfl, by rfl, by rfl, ?_, ?_, ?_, ?_⟩
  · intro url v h
    simp only [String.toList] at h
    simp [extractVideoId, h]
  · intro url v h1 h2
    simp only [String.toList] at h1 h2
    simp [extractVideoId, h1, h2]
  · intro url v h1 h2 h3
    simp only [String.toList] at h1 h2 h3
    simp [extractVideoId, h1, h2, h3]
  · intro url h1 h2 h3
    simp only [String.toList] at h1 h2 h3
    simp [extractVideoId, h1, h2, h3]

/-- C4 witness: the pattern-order statements applied at concrete inputs. -/
theorem C4_video_id_extraction_witness :
    extractVideoId "https://www.youtube.com/watch?v=dQw4w9WgXcQ" = .ok "dQw4w9WgXcQ" ∧
    extractVideoId "ABCDEFGHIJKL" =
      .error "Could not extract video ID from URL: ABCDEFGHIJKL" :=
  ⟨C4_video_id_extraction.2.2.2.2.1 "https://www.youtube.com/watch?v=dQw4w9WgXcQ"
      "dQw4w9WgXcQ" (by rfl),
   C4_video_id_extraction.2.2.2.2.2.2.2 "ABCDEFGHIJKL" (by rfl) (by rfl) (by rfl)⟩

set_option linter.unusedVariables false in
/-- C5: on any successful transcript retrieval with a non-empty segment
list, the response text is the space-joined concatenation of the segment
texts and the segments appear in upstream order. -/
theorem C5_transcript_round_trip (url : String) (language : Option String)
    (defaultLang : String) (segs : List RawSegment) (resp : TranscriptResponse)
    (hne : segs ≠ [])
    (h : getTranscript url language defaultLang (.fetched segs) = .ok resp) :
    resp.text = String.intercalate " " (resp.segments.map TranscriptSegment.text) ∧
    resp.segments = segs.map (fun s => { text := s.text, start := s.start, duration := s.duration }) := by
  unfold getTranscript at h
  cases hx : extractVideoId url with
  | error e => rw [hx] at h; exact absurd h (by simp)
  | ok vid =>
    rw [hx] at h
    simp only [Except.ok.injEq] at h
    subst h
    have hc : (TranscriptSegment.text ∘ fun s : RawSegment =>
        ({ text := s.text, start := s.start, duration := s.duration } : TranscriptSegment)) =
        RawSegment.text := by
      funext s
      rfl
    constructor
    · simp [buildTranscriptResponse, List.map_map, hc]
    · rfl

/-- C5 witness: the round trip at a concrete two-segment transcript. -/
theorem C5_transcript_round_trip_witness :
    (([⟨"hello", 0, 1⟩, ⟨"world", 1, 2⟩] : List RawSegment) ≠ []) ∧
    (({ text := "hello world", language := "en",
        segments := [⟨"hello", 0, 1⟩, ⟨"world", 1, 2⟩] } : TranscriptResponse).text =
      String.intercalate " "
        ((({ text := "hello world", language := "en",
             segments := [⟨"hello", 0, 1⟩, ⟨"world", 1, 2⟩] } : TranscriptResponse)).segments.map
          TranscriptSegment.text)) :=
  ⟨by simp,
   (C5_transcript_round_trip "CCCCCCCCCCC" none "en"
      [⟨"hello", 0, 1⟩, ⟨"world", 1, 2⟩]
      { text := "hello world", language := "en",
        segments := [⟨"hello", 0, 1⟩, ⟨"world", 1, 2⟩] }
      (by simp) (by rfl)).1⟩



/-- A string with a nonempty left part of an append is nonempty. -/
theorem append_ne_empty_left (a b : String) (h : a.length ≠ 0) : a ++ b ≠ "" := by
  intro hc
  have hl := congrArg String.length hc
  rw [String.length_append] at hl
  simp at hl
  omega

/-- Every error message `_validate_response_data` can raise is nonempty. -/
theorem validateResponseData_error_ne (decoded : DecodedBody) (msg : String)
    (h : validateResponseData decoded = .error msg) : msg ≠ "" := by
  unfold validateResponseData at h
  repeat' split at h
  all_goals first
    | (injection h with h; subst h; decide)
    | simp at h

/-- C1: every failing crawl outcome yields (never raises) a `CrawlResponse`
with exactly one result whose status is `"failed"`, success is `false`,
content is the fixed placeholder, and error is a nonempty message. -/
theorem C1_crawl_error_convergence (url : String) (outcome : CrawlOutcome)
    (h : crawlFailure outcome = true) :
    ∃ e, e ≠ "" ∧ crawl url outcome =
      { results := [{ url := url, content := "Error occurred while crawling",
                      status := "failed", success := false, error := some e,
                      links := { internal := [], ext := [] } }],
        total_count := 1 } := by
  cases outcome with
  | timeout msg =>
    exact ⟨"Request timeout: " ++ msg, append_ne_empty_left _ _ (by decide), rfl⟩
  | transportError msg =>
    exact ⟨"HTTP/2 transport error: " ++ msg, append_ne_empty_left _ _ (by decide), rfl⟩
  | requestError msg =>
    exact ⟨"Request failed: " ++ msg, append_ne_empty_left _ _ (by decide), rfl⟩
  | unexpected msg =>
    exact ⟨"Unexpected error: " ++ msg, append_ne_empty_left _ _ (by decide), rfl⟩
  | response status statusMsg body =>
    by_cases hs : (200 ≤ status && status < 300) = true
    · cases body with
      | error msg =>
        refine ⟨"Invalid JSON response: " ++ msg, append_ne_empty_left _ _ (by decide), ?_⟩
        simp [crawl, buildErrorResponse, hs]
      | ok decoded =>
        cases hv : validateResponseData decoded with
        | error msg =>
          refine ⟨msg, validateResponseData_error_ne decoded msg hv, ?_⟩
          simp [crawl, buildErrorResponse, hs, hv]
        | ok v =>
          exfalso
          simp [crawlFailure, hs, hv] at h
    · refine ⟨"HTTP " ++ toString status ++ ": " ++ statusMsg,
        append_ne_empty_left _ _ ?_, ?_⟩
      · have h5 : ("HTTP " ++ toString status).length = 5 + (toString status).length := by
          rw [String.length_append]
          rfl
        rw [String.length_append, h5]
        omega
      · simp [crawl, buildErrorResponse, hs]

/-- C1 witness: the convergence applied to a concrete timeout outcome. -/
theorem C1_crawl_error_convergence_witness :
    crawlFailure (.timeout "boom") = true ∧
    ∃ e, e ≠ "" ∧ crawl "https://example.com" (.timeout "boom") =
      { results := [{ url := "https://example.com",
                      content := "Error occurred while crawling",
                      status := "failed", success := false, error := some e,
                      links := { internal := [], ext := [] } }],
        total_count := 1 } :=
  ⟨rfl, C1_crawl_error_convergence "https://example.com" (.timeout "boom") rfl⟩



/-- C6: `CrawlParams.validate_url` accepts exactly the URLs whose parse has
a scheme and a host with the scheme `http` or `https`; the spec's four
concrete examples behave as stated; and with a failed validation the crawl
handler's output does not depend on any upstream outcome (no upstream call
fires). -/
theorem C6_crawl_url_validation :
    (∀ v, validateCrawlUrl v = .ok v ↔
      ((urlparse v).scheme ≠ "" ∧ (urlparse v).netloc ≠ "" ∧
        ((urlparse v).scheme = "http" ∨ (urlparse v).scheme = "https"))) ∧
    validateCrawlUrl "ftp://example.com" = .error "URL scheme must be http or https" ∧
    validateCrawlUrl "example.com" =
      .error "Invalid URL format: must include scheme and host" ∧
    validateCrawlUrl "http://" =
      .error "Invalid URL format: must include scheme and host" ∧
    validateCrawlUrl "https://example.com/page?x=1" = .ok "https://example.com/page?x=1" ∧
    (∀ e (o1 o2 : CrawlOutcome),
      crawlHandleRequest (.error e) o1 = crawlHandleRequest (.error e) o2) := by
  refine ⟨?_, by rfl, by rfl, by rfl, by rfl, fun e o1 o2 => rfl⟩
  intro v
  by_cases h1 : (urlparse v).scheme = ""
  · simp [validateCrawlUrl, h1]
  · by_cases h2 : (urlparse v).netloc = ""
    · simp [validateCrawlUrl, h1, h2]
    · by_cases h3 : (urlparse v).scheme = "http" ∨ (urlparse v).scheme = "https"
      · rcases h3 with h3 | h3 <;> simp [validateCrawlUrl, h1, h2, h3]
      · push_neg at h3
        simp [validateCrawlUrl, h1, h2, h3.1, h3.2]

/-- C6 witness: the acceptance characterisation applied at a concrete URL. -/
theorem C6_crawl_url_validation_witness :
    validateCrawlUrl "http://host.example" = .ok "http://host.example" :=
  (C6_crawl_url_validation.1 "http://host.example").mpr
    ⟨by decide, by decide, Or.inl (by decide)⟩

/-- An arguments mapping containing a key is nonempty. -/
theorem hasArg_isEmpty (args : Arguments) (key : String) (h : hasArg args key = true) :
    args.isEmpty = false := by
  cases args with
  | nil => simp [hasArg] at h
  | cons kv rest => rfl

/-- C2: the dispatcher rejects unknown tool names, rejects a missing
`query` (search) or `url` (crawl) before any adapter runs — on every
rejection path the result is independent of the adapter handlers — and
otherwise delegates to the matching adapter, returning its output
verbatim. -/
theorem C2_call_tool_dispatch :
    (∀ (s c : Bool) (hs hc : Arguments → List TextContent) (name : String)
        (args : Option Arguments),
      ¬(name = "searxng_search" ∧ s = true) →
      ¬(name = "crawl4ai_extract" ∧ c = true) →
      handleCallTool s c hs hc name args = .error ("Unknown tool: " ++ name)) ∧
    (∀ (c : Bool) (hs hc : Arguments → List TextContent) (args : Option Arguments),
      hasArg (args.getD []) "query" = false →
      handleCallTool true c hs hc "searxng_search" args =
        .error "Missing required parameter: 'query'") ∧
    (∀ (s : Bool) (hs hc : Arguments → List TextContent) (args : Option Arguments),
      hasArg (args.getD []) "url" = false →
      handleCallTool s true hs hc "crawl4ai_extract" args =
        .error "Missing required parameter: 'url'") ∧
    (∀ (s c : Bool) (hs hs2 hc hc2 : Arguments → List TextContent) (name : String)
        (args : Option Arguments),
      hasArg (args.getD []) "query" = false → hasArg (args.getD []) "url" = false →
      handleCallTool s c hs hc name args = handleCallTool s c hs2 hc2 name args) ∧
    (∀ (c : Bool) (hs hc : Arguments → List TextContent) (args : Arguments),
      hasArg args "query" = true →
      handleCallTool true c hs hc "searxng_search" (some args) = .ok (hs args)) ∧
    (∀ (s : Bool) (hs hc : Arguments → List TextContent) (args : Arguments),
      hasArg args "url" = true →
      handleCallTool s true hs hc "crawl4ai_extract" (some args) = .ok (hc args)) := by
  refine ⟨?_, ?_, ?_, ?_, ?_, ?_⟩
  · intro s c hs hc name args hns hnc
    have h1 : (name == "searxng_search" && s) = false := by
      by_cases he : name = "searxng_search"
      · have hf : s = false := by
          rcases Bool.eq_false_or_eq_true s with hb | hb
          · exact absurd ⟨he, hb⟩ hns
          · exact hb
        simp [hf]
      · simp [he]
    have h2 : (name == "crawl4ai_extract" && c) = false := by
      by_cases he : name = "crawl4ai_extract"
      · have hf : c = false := by
          rcases Bool.eq_false_or_eq_true c with hb | hb
          · exact absurd ⟨he, hb⟩ hnc
          · exact hb
        simp [hf]
      · simp [he]
    simp [handleCallTool, h1, h2]
  · intro c hs hc args hq
    simp [handleCallTool, hq]
  · intro s hs hc args hu
    simp [handleCallTool, hu]
  · intro s c hs hs2 hc hc2 name args hq hu
    unfold handleCallTool
    split_ifs <;> simp_all
  · intro c hs hc args hq
    simp [handleCallTool, hq, hasArg_isEmpty args "query" hq]
  · intro s hs hc args hu
    simp [handleCallTool, hu, hasArg_isEmpty args "url" hu]

/-- C2 witness: dispatch outcomes at concrete names and arguments. -/
theorem C2_call_tool_dispatch_witness :
    handleCallTool true true (fun _ => [{ text := "S" }]) (fun _ => [{ text := "C" }])
      "bogus_tool" none = .error "Unknown tool: bogus_tool" ∧
    handleCallTool true true (fun _ => [{ text := "S" }]) (fun _ => [{ text := "C" }])
      "searxng_search" (some [("limit", "3")]) =
      .error "Missing required parameter: 'query'" ∧
    handleCallTool true true (fun _ => [{ text := "S" }]) (fun _ => [{ text := "C" }])
      "searxng_search" (some [("query", "lean")]) = .ok [{ text := "S" }] ∧
    handleCallTool true true (fun _ => [{ text := "S" }]) (fun _ => [{ text := "C" }])
      "crawl4ai_extract" (some [("url", "https://example.com")]) = .ok [{ text := "C" }] :=
  ⟨C2_call_tool_dispatch.1 true true _ _ "bogus_tool" none (by simp) (by simp),
   C2_call_tool_dispatch.2.1 true _ _ (some [("limit", "3")]) (by decide),
   C2_call_tool_dispatch.2.2.2.2.1 true _ _ [("query", "lean")] (by decide),
   C2_call_tool_dispatch.2.2.2.2.2 true _ _ [("url", "https://example.com")] (by decide)⟩



/-- C3: a successful search responds with `total_count` equal to the number
of upstream entries while malformed entries (missing title, missing url, or
an url failing http/https validation) are skipped, never failing the
search; an absent content defaults the snippet; on the spec's 3-entry
example the lengths are 2 and 3. -/
theorem C3_search_skips_malformed :
    (∀ (p : SearchParams) (sm : String) (entries : List RawSearchEntry),
      ∃ r, search p (.response 200 sm (.ok { results := some entries })) = .ok r ∧
        r.total_count = entries.length ∧
        r.results = entries.filterMap validateSearchEntry) ∧
    (∀ e : RawSearchEntry,
      e.title = none ∨ e.url = none ∨ validHttpUrl (e.url.getD "") = false →
      validateSearchEntry e = none) ∧
    (∀ t u, validHttpUrl u = true →
      validateSearchEntry { title := some t, url := some u, content := none } =
        some { title := t, url := u, snippet := "No description available" }) ∧
    (∃ r, search { query := "q", limit := 3, time_range := none, page := some 1 }
        (.response 200 "" (.ok { results := some (
          [{ title := some "one", url := some "https://one.example/", content := some "first" },
           { title := some "two", url := none, content := some "second" },
           { title := some "three", url := some "https://three.example/", content := none }]) })) =
        .ok r ∧ r.results.length = 2 ∧ r.total_count = 3) := by
  refine ⟨?_, ?_, ?_, ?_⟩
  · intro p sm entries
    exact ⟨_, rfl, rfl, rfl⟩
  · intro e h
    rcases he : e with ⟨t, u, c⟩
    rcases h with h | h | h
    all_goals subst he
    · simp at h
      simp [validateSearchEntry, h]
    · simp at h
      cases t <;> simp [validateSearchEntry, h]
    · cases t with
      | none => simp [validateSearchEntry]
      | some tv =>
        cases u with
        | none => simp [validateSearchEntry]
        | some uv =>
          simp at h
          simp [validateSearchEntry, h]
  · intro t u h
    simp [validateSearchEntry, h]
  · exact ⟨_, rfl, rfl, rfl⟩

/-- C3 witness: entry validation applied at concrete entries. -/
theorem C3_search_skips_malformed_witness :
    validateSearchEntry
      { title := some "t", url := some "https://x.example/", content := none } =
      some { title := "t", url := "https://x.example/",
             snippet := "No description available" } ∧
    validateSearchEntry { title := some "t", url := none, content := some "c" } = none :=
  ⟨C3_search_skips_malformed.2.2.1 "t" "https://x.example/" (by decide),
   C3_search_skips_malformed.2.1
     { title := some "t", url := none, content := some "c" } (Or.inr (Or.inl rfl))⟩

set_option linter.unusedVariables false in
/-- C9: the `limit` parameter is dead at the search interface — two
validated parameter sets differing only in `limit` build the same upstream
query and, for the same upstream outcome, produce the same response. -/
theorem C9_limit_dead (p1 p2 : SearchParams) (outcome : SearchOutcome)
    (hq : p1.query = p2.query) (hp : p1.page = p2.page)
    (ht : p1.time_range = p2.time_range)
    (hl1 : 1 ≤ p1.limit) (hl2 : p1.limit ≤ 50)
    (hl3 : 1 ≤ p2.limit) (hl4 : p2.limit ≤ 50) :
    buildSearchApiParams p1 = buildSearchApiParams p2 ∧
    search p1 outcome = search p2 outcome := by
  constructor
  · simp [buildSearchApiParams, hq, hp, ht]
  · rfl

/-- C9 witness: limits 1 and 50 around an otherwise identical request. -/
theorem C9_limit_dead_witness :
    buildSearchApiParams { query := "q", limit := 1, time_range := none, page := some 1 } =
      buildSearchApiParams { query := "q", limit := 50, time_range := none, page := some 1 } ∧
    search { query := "q", limit := 1, time_range := none, page := some 1 }
        (.response 200 "" (.ok { results := some [] })) =
      search { query := "q", limit := 50, time_range := none, page := some 1 }
        (.response 200 "" (.ok { results := some [] })) :=
  C9_limit_dead _ _ _ rfl rfl rfl (by decide) (by decide) (by decide) (by decide)

/-- C10: each of the three tool handlers is total and converts every
failure — parameter validation, upstream call, transcript extraction —
into a single text content prefixed with its tool verb; everything else is
the success rendering. -/
theorem C10_handlers_convert_all_failures :
    (∀ (parse : Except String SearchParams) (outcome : SearchOutcome),
      (∃ resp, searchHandleRequest parse outcome = renderSearchResponse resp) ∨
      (∃ msg, searchHandleRequest parse outcome = [{ text := "Search failed: " ++ msg }])) ∧
    (∀ (parse : Except String CrawlParams) (outcome : CrawlOutcome),
      (∃ resp, crawlHandleRequest parse outcome = renderCrawlResponse resp) ∨
      (∃ msg, crawlHandleRequest parse outcome = [{ text := "Crawl failed: " ++ msg }])) ∧
    (∀ (parse : Except String TranscriptRequest) (defaultLang : String)
        (outcome : TranscriptOutcome),
      (∃ t, transcriptHandleRequest parse defaultLang outcome = renderTranscriptResponse t) ∨
      (∃ msg, transcriptHandleRequest parse defaultLang outcome =
        [{ text := "Transcript extraction failed: " ++ msg }])) := by
  refine ⟨?_, ?_, ?_⟩
  · intro parse outcome
    cases parse with
    | error e => exact Or.inr ⟨e, rfl⟩
    | ok p =>
      cases hs : search p outcome with
      | error e => exact Or.inr ⟨e, by simp [searchHandleRequest, hs]⟩
      | ok resp => exact Or.inl ⟨resp, by simp [searchHandleRequest, hs]⟩
  · intro parse outcome
    cases parse with
    | error e => exact Or.inr ⟨e, rfl⟩
    | ok p => exact Or.inl ⟨crawl p.url outcome, rfl⟩
  · intro parse defaultLang outcome
    cases parse with
    | error e => exact Or.inr ⟨e, rfl⟩
    | ok p =>
      cases hg : getTranscript p.url p.language defaultLang outcome with
      | error e => exact Or.inr ⟨e, by simp [transcriptHandleRequest, hg]⟩
      | ok t => exact Or.inl ⟨t, by simp [transcriptHandleRequest, hg]⟩

/-- C7 counterexample: with both registered tools, `list_tools` yields only
the search and crawl descriptors and calling `youtube_transcript` with an
`url` argument fails with the unknown-tool error, contrary to the claim. -/
theorem C7_counterexample :
    handleCallTool true true (fun _ => [{ text := "searx" }]) (fun _ => [{ text := "crawl" }])
      "youtube_transcript" (some [("url", "https://youtu.be/AAAAAAAAAAA")]) =
      .error "Unknown tool: youtube_transcript" ∧
    (handleListTools true true).map ToolDescriptor.name =
      ["searxng_search", "crawl4ai_extract"] :=
  ⟨rfl, rfl⟩

/-- C7 amended: the repository defines the `youtube_transcript` tool
descriptor and handler, but the server never registers them — the
dispatcher always answers the unknown-tool error for that name and the
descriptor never appears in `list_tools`. -/
theorem C7_youtube_tool_unregistered :
    youtubeToolDefinition.name = "youtube_transcript" ∧
    youtubeToolDefinition.required = ["url"] ∧
    (∀ (s c : Bool) (hs hc : Arguments → List TextContent) (args : Option Arguments),
      handleCallTool s c hs hc "youtube_transcript" args =
        .error "Unknown tool: youtube_transcript") ∧
    (∀ s c : Bool,
      ((handleListTools s c).map ToolDescriptor.name).contains "youtube_transcript" = false) := by
  refine ⟨rfl, rfl, ?_, ?_⟩
  · intro s c hs hc args
    rfl
  · intro s c
    cases s <;> cases c <;> rfl

/-- C8 counterexample: a successfully validated response with one raw
internal link carrying no fields at all produces a `Link` whose `title` is
the empty string (`some ""`), not `none` — the absent title does not stay
absent. -/
theorem C8_counterexample :
    (crawl "https://example.com"
      (.response 200 "" (.ok (.dict
        { result := some
            { markdown := some (some "md"), success := some true,
              links := some
                { internal := some [{ href := none, text := none, title := none }],
                  ext := some [] } },
          error := none })))).results =
      [{ url := "https://example.com", content := "md", status := "completed",
         success := true, error := none,
         links := { internal := [{ href := "", text := "", title := some "" }],
                    ext := [] } }] ∧
    (crawl "https://example.com"
      (.response 200 "" (.ok (.dict
        { result := some
            { markdown := some (some "md"), success := some true,
              links := some
                { internal := some [{ href := none, text := none, title := none }],
                  ext := some [] } },
          error := none })))).results.map (fun r => r.links.internal.map Link.title) =
      [[some ""]] :=
  ⟨rfl, rfl⟩

/-- C8 amended: on every successfully validated crawl response the internal
and external raw link lists are independently reshaped, and each raw
entry's `href`, `text` and `title` all default to the empty string when
absent — so the produced optional `title` always carries a string, never
stays absent. -/
theorem C8_link_reshaping (url statusMsg : String) (md : Option String) (s : Bool)
    (internalLinks extLinks : List RawLink) (topErr : Option String) :
    (crawl url (.response 200 statusMsg (.ok (.dict
      { result := some { markdown := some md, success := some s,
                         links := some { internal := some internalLinks,
                                         ext := some extLinks } },
        error := topErr })))).results.map (fun r => r.links) =
      [{ internal := internalLinks.map (fun l =>
            { href := l.href.getD "", text := l.text.getD "",
              title := some (l.title.getD "") }),
         ext := extLinks.map (fun l =>
            { href := l.href.getD "", text := l.text.getD "",
              title := some (l.title.getD "") }) }] := by
  rfl

end WebIntegration
